import Mathlib

/-!
# Verification of the 2OpenaiDraw proxy (both deployment variants)

Shallow embedding of the two Deno HTTP proxy workers in this repository:

* `Jimeng` — `src/jimeng2opendraw.ts`: proxies `POST /v1/images/generations`
  to a fixed upstream host, filtering body parameters against an allow-list,
  enforcing the required `prompt` field and injecting defaults; 404 otherwise.
* `XAI` — the unnamed companion worker: proxies every `/v1/` path to
  `api.x.ai`, with the same image-generation transformation (different
  allow-list, no required field, no defaults) and a generic passthrough for
  all other `/v1/` routes.

JavaScript runtime values are embedded as follows: JSON values are `JValue`
(numbers as `ℚ`), JS objects as insertion-ordered association lists
(`RecObj`), `Headers` as case-insensitive association lists, and the
fallible steps (`request.json()`, `fetch`) as explicit `Except` / oracle
results.  `request.json()` is modelled by a field `jsonResult` on the
inbound request carrying the outcome of parsing the body text, since JSON
text parsing itself is runtime-library behaviour, not code of this
repository.  A JS exception propagating through a `try` block is an
`Except.error` carrying the exception message.
-/

/-- A JSON value as produced by `request.json()`.  JS `undefined` is not a
`JValue`; absence of an object property is `Option.none` at use sites. -/
inductive JValue : Type where
  | null : JValue
  | bool (b : Bool) : JValue
  | num (q : ℚ) : JValue
  | str (s : String) : JValue
  | arr (elems : List JValue) : JValue
  | obj (fields : List (String × JValue)) : JValue

/-- JS truthiness of a JSON value (`!v` is `!truthy v`). -/
def JValue.truthy : JValue → Bool
  | .null => false
  | .bool b => b
  | .num q => decide (q ≠ 0)
  | .str s => s ≠ ""
  | .arr _ => true
  | .obj _ => true

/-- Truthiness of a possibly-absent value: JS `undefined` is falsy. -/
def truthyOpt : Option JValue → Bool
  | none => false
  | some v => v.truthy

/-- A JS object as an insertion-ordered association list (property names are
case-sensitive). -/
abbrev RecObj : Type := List (String × JValue)

/-- Property lookup on a JS object: first entry with the given key. -/
def RecObj.get : RecObj → String → Option JValue
  | [], _ => none
  | (k, v) :: rest, key => if k == key then some v else RecObj.get rest key

/-- Property assignment `o[key] = v`: replace in place if present, else
append (JS object insertion-order semantics). -/
def RecObj.set : RecObj → String → JValue → RecObj
  | [], key, v => [(key, v)]
  | (k, w) :: rest, key, v =>
      if k == key then (key, v) :: rest else (k, w) :: RecObj.set rest key v

/-- Property access `v[key]` on an arbitrary JS value: throws a `TypeError`
on `null`, yields the property on objects, and `undefined` (`none`) on other
primitives. -/
def JValue.getProp : JValue → String → Except String (Option JValue)
  | .null, _ => .error "Cannot read properties of null"
  | .obj fields, key => .ok (RecObj.get fields key)
  | _, _ => .ok none

/-- `a.isPrefixOf b` over character lists (kernel-friendly substitute for
byte-position-based `String` primitives). -/
def strStartsWith (s pat : String) : Bool :=
  pat.toList.isPrefixOf s.toList

/-- Does `pat` occur as a contiguous substring of the character list? -/
def strHasSub (pat : List Char) : List Char → Bool
  | [] => pat.isEmpty
  | c :: cs => pat.isPrefixOf (c :: cs) || strHasSub pat cs

/-- JS `s.includes(pat)`. -/
def strIncludes (s pat : String) : Bool :=
  strHasSub pat.toList s.toList

/-- Lower-cased character list of a header name (kernel-friendly substitute
for `String.toLower`). -/
def lowerName (s : String) : List Char :=
  s.toList.map Char.toLower

/-- HTTP header names compare case-insensitively. -/
def headerNameMatches (a b : String) : Bool :=
  lowerName a == lowerName b

/-- A `Headers` collection: ordered name/value pairs, names matched
case-insensitively. -/
abbrev Headers : Type := List (String × String)

/-- `headers.get(name)`: first entry whose name matches case-insensitively. -/
def Headers.get : Headers → String → Option String
  | [], _ => none
  | (k, v) :: rest, name =>
      if headerNameMatches k name then some v else Headers.get rest name

/-- Remove every entry whose name matches case-insensitively. -/
def Headers.delete : Headers → String → Headers
  | [], _ => []
  | (k, v) :: rest, name =>
      if headerNameMatches k name then Headers.delete rest name
      else (k, v) :: Headers.delete rest name

/-- `headers.set(name, value)`: remove matching entries, add the pair. -/
def Headers.set (h : Headers) (name value : String) : Headers :=
  Headers.delete h name ++ [(name, value)]

/-- The outbound target URL: scheme forced to `https`, fixed upstream host,
inbound path, and re-appended query parameters. -/
structure TargetUrl : Type where
  scheme : String
  host : String
  path : String
  query : List (String × String)

/-- The body attached to an outbound upstream request. -/
inductive OutBody : Type where
  | noBody : OutBody
  | jsonObj (fields : RecObj) : OutBody
  | stream (b : Option String) : OutBody

/-- The upstream request handed to `fetch`. -/
structure OutboundRequest : Type where
  url : TargetUrl
  method : String
  headers : Headers
  body : OutBody

/-- An upstream response as observed through `fetch`. -/
structure UpstreamResponse : Type where
  status : Nat
  statusText : String
  headers : Headers
  body : Option String

/-- Outcome of a `fetch` call: a response, or a thrown error (network
failure, DNS failure, timeout) carrying `error.message`. -/
inductive FetchResult : Type where
  | ok (resp : UpstreamResponse) : FetchResult
  | err (msg : String) : FetchResult

/-- The `fetch` oracle: the network's behaviour on each outbound request. -/
def Fetch : Type := OutboundRequest → FetchResult

/-- The inbound HTTP request.  `jsonResult` is the outcome of
`(await request.clone().json())` on the raw body: `Except.error` when the
body text is not valid JSON. -/
structure Request : Type where
  method : String
  path : String
  query : List (String × String)
  headers : Headers
  rawBody : Option String
  jsonResult : Except String JValue

/-- The response returned to the caller. -/
structure Response : Type where
  status : Nat
  statusText : String
  headers : Headers
  body : Option String

/-- `JSON.stringify({ error: msg })`. -/
def jsonError (msg : String) : String :=
  "\x7b\"error\":\"" ++ msg ++ "\"\x7d"

/-- Headers sent on a CORS preflight response (identical in both variants). -/
def PREFLIGHT_CORS_HEADERS : Headers :=
  [("Access-Control-Allow-Origin", "*"),
   ("Access-Control-Allow-Methods", "GET, POST, PUT, DELETE, OPTIONS"),
   ("Access-Control-Allow-Headers", "Content-Type, Authorization, X-Requested-With"),
   ("Access-Control-Max-Age", "86400")]

/-- Headers overlaid on every non-preflight response. -/
def SUCCESS_CORS_HEADERS : Headers :=
  [("Access-Control-Allow-Origin", "*")]

/-- `handleCorsPreflight`: 204, empty body, fixed preflight header set. -/
def handleCorsPreflight : Response :=
  { status := 204, statusText := "", headers := PREFLIGHT_CORS_HEADERS, body := none }

/-- `addCorsHeaders`: `headers.set` for each entry of `SUCCESS_CORS_HEADERS`. -/
def addCorsHeaders (headers : Headers) : Headers :=
  SUCCESS_CORS_HEADERS.foldl (fun h kv => h.set kv.1 kv.2) headers

/-- A JSON error response: fresh `Content-Type: application/json` headers
with the CORS overlay and body `JSON.stringify({ error: msg })`. -/
def jsonErrorResponse (status : Nat) (msg : String) : Response :=
  { status := status, statusText := "",
    headers := addCorsHeaders [("Content-Type", "application/json")],
    body := some (jsonError msg) }

/-- The plain-text 404 response used by both route dispatchers. -/
def notFoundResponse : Response :=
  { status := 404, statusText := "",
    headers := addCorsHeaders [("Content-Type", "text/plain")],
    body := some "Not Found" }

/-- The outer `catch` response: 500 with the exception message embedded. -/
def serverErrorResponse (msg : String) : Response :=
  jsonErrorResponse 500 ("Internal Server Error: " ++ msg)

/-- One pass of the allow-list filtering loop: copy each key whose value in
the parsed body is not `undefined`; a thrown property access (on a `null`
body) aborts the loop. -/
def filterParamsAux (body : JValue) : List String → RecObj → Except String RecObj
  | [], acc => .ok acc
  | p :: rest, acc =>
    match body.getProp p with
    | .error e => .error e
    | .ok (some v) => filterParamsAux body rest (RecObj.set acc p v)
    | .ok none => filterParamsAux body rest acc

/-- Parameter filtering (both variants): iterate the allow-list over a fresh
empty object. -/
def filterParams (params : List String) (body : JValue) : Except String RecObj :=
  filterParamsAux body params []

/-- Parameter filtering on a parsed object body (the total restriction of
`filterParams` to `JValue.obj`). -/
def filterObj (params : List String) (fields : RecObj) : RecObj :=
  params.foldl
    (fun acc p =>
      match RecObj.get fields p with
      | some v => RecObj.set acc p v
      | none => acc)
    []

/-- The outbound image-generation request: POST with fresh
`Content-Type`/`Authorization` headers and the filtered body serialized. -/
def mkApiRequest (targetUrl : TargetUrl) (auth : String) (filteredBody : RecObj) :
    OutboundRequest :=
  { url := targetUrl, method := "POST",
    headers := [("Content-Type", "application/json"), ("Authorization", auth)],
    body := OutBody.jsonObj filteredBody }

/-- Relay of a successful upstream image response: clone upstream headers,
overlay CORS, force `Content-Type: application/json`, stream the body. -/
def relayImageResponse (u : UpstreamResponse) : Response :=
  { status := u.status, statusText := u.statusText,
    headers := (addCorsHeaders u.headers).set "Content-Type" "application/json",
    body := u.body }

/-- `new URL("https://" + host + path)` followed by
`url.searchParams.forEach((v, k) => targetUrl.searchParams.append(k, v))`. -/
def buildTargetUrl (host path : String) (query : List (String × String)) : TargetUrl :=
  query.foldl (fun u kv => { u with query := u.query ++ [kv] })
    { scheme := "https", host := host, path := path, query := [] }

namespace Jimeng

def TARGET_API_HOST : String := "sejktjafstpl.us-east-1.clawcloudrun.com"

def IMAGE_GENERATION_PATH : String := "/v1/images/generations"

def SUPPORTED_IMAGE_PARAMS : List String :=
  ["model", "prompt", "negativePrompt", "width", "height", "sample_strength"]

/-- Lines 99–104: inject hardcoded defaults.  The first four use JS
truthiness (`if (!filteredBody.x)`), `sample_strength` uses a strict
`=== undefined` check. -/
def addDefaults (fb : RecObj) : RecObj :=
  let fb1 := if truthyOpt (RecObj.get fb "model") then fb
             else RecObj.set fb "model" (JValue.str "jimeng-3.0")
  let fb2 := if truthyOpt (RecObj.get fb1 "negativePrompt") then fb1
             else RecObj.set fb1 "negativePrompt" (JValue.str "")
  let fb3 := if truthyOpt (RecObj.get fb2 "width") then fb2
             else RecObj.set fb2 "width" (JValue.num 1024)
  let fb4 := if truthyOpt (RecObj.get fb3 "height") then fb3
             else RecObj.set fb3 "height" (JValue.num 1024)
  if (RecObj.get fb4 "sample_strength").isNone
  then RecObj.set fb4 "sample_strength" (JValue.num (1/2))
  else fb4

/-- The 502 response for a failed upstream `fetch` on the image path. -/
def fetchErrorResponse (msg : String) : Response :=
  jsonErrorResponse 502 ("Error fetching from API: " ++ msg)

/-- The `try { fetch } catch` around the upstream dispatch. -/
def forwardImage (fetch : Fetch) (apiRequest : OutboundRequest) : Response :=
  match fetch apiRequest with
  | .ok u => relayImageResponse u
  | .err m => fetchErrorResponse m

/-- `handleImageGenerationRequest` (jimeng variant): content-type check,
JSON parse, required `prompt` check, allow-list filtering, defaulting,
upstream dispatch.  An uncaught JS exception (property access on a `null`
body) is an `Except.error`. -/
def handleImageGenerationRequest (fetch : Fetch) (req : Request)
    (targetUrl : TargetUrl) : Except String Response :=
  let contentType := (req.headers.get "Content-Type").getD ""
  if strIncludes contentType "application/json" then
    match req.jsonResult with
    | .error _ => .ok (jsonErrorResponse 400 "Invalid JSON body")
    | .ok originalBody =>
      match originalBody.getProp "prompt" with
      | .error e => .error e
      | .ok promptVal =>
        if truthyOpt promptVal then
          match filterParams SUPPORTED_IMAGE_PARAMS originalBody with
          | .error e => .error e
          | .ok filtered =>
            let filteredBody := addDefaults filtered
            .ok (forwardImage fetch
              (mkApiRequest targetUrl ((req.headers.get "Authorization").getD "")
                filteredBody))
        else .ok (jsonErrorResponse 400 "Missing required parameter: prompt")
  else .ok (jsonErrorResponse 400 "Unsupported Content-Type. Please use application/json")

/-- The body of `handleRequest`'s `try` block (jimeng variant): image route
or 404. -/
def handleRequestCore (fetch : Fetch) (req : Request) : Except String Response :=
  if req.path == IMAGE_GENERATION_PATH && req.method == "POST" then
    handleImageGenerationRequest fetch req
      (buildTargetUrl TARGET_API_HOST req.path req.query)
  else .ok notFoundResponse

/-- `handleRequest` (jimeng variant): OPTIONS preflight, then the `try`
block with the outer `catch` mapping any uncaught exception to 500. -/
def handleRequest (fetch : Fetch) (req : Request) : Response :=
  if req.method == "OPTIONS" then handleCorsPreflight
  else
    match handleRequestCore fetch req with
    | .ok r => r
    | .error e => serverErrorResponse e

end Jimeng

namespace XAI

def XAI_API_HOST : String := "api.x.ai"

def IMAGE_GENERATION_PATH : String := "/v1/images/generations"

def SUPPORTED_IMAGE_PARAMS : List String :=
  ["model", "prompt", "n", "response_format"]

/-- The 502 response for a failed upstream `fetch` on the image path. -/
def fetchErrorResponse (msg : String) : Response :=
  jsonErrorResponse 502 ("Error fetching from xAI API: " ++ msg)

/-- The `try { fetch } catch` around the upstream dispatch. -/
def forwardImage (fetch : Fetch) (apiRequest : OutboundRequest) : Response :=
  match fetch apiRequest with
  | .ok u => relayImageResponse u
  | .err m => fetchErrorResponse m

/-- `handleImageGenerationRequest` (xAI variant): content-type check, JSON
parse, allow-list filtering (no required field, no defaults), upstream
dispatch. -/
def handleImageGenerationRequest (fetch : Fetch) (req : Request)
    (targetUrl : TargetUrl) : Except String Response :=
  let contentType := (req.headers.get "Content-Type").getD ""
  if strIncludes contentType "application/json" then
    match req.jsonResult with
    | .error _ => .ok (jsonErrorResponse 400 "Invalid JSON body")
    | .ok originalBody =>
      match filterParams SUPPORTED_IMAGE_PARAMS originalBody with
      | .error e => .error e
      | .ok filteredBody =>
        .ok (forwardImage fetch
          (mkApiRequest targetUrl ((req.headers.get "Authorization").getD "")
            filteredBody))
  else .ok (jsonErrorResponse 400 "Unsupported Content-Type. Please use application/json")

/-- Headers of the generic passthrough request: clone the inbound headers,
overwrite `Host`, delete the four Cloudflare hop-specific headers. -/
def passthroughHeaders (h : Headers) : Headers :=
  ((((h.set "Host" XAI_API_HOST).delete "cf-connecting-ip").delete
      "cf-ipcountry").delete "cf-ray").delete "cf-visitor"

/-- The generic passthrough request: original method, rewritten headers, and
the inbound body stream for methods that may carry one. -/
def passthroughRequest (targetUrl : TargetUrl) (req : Request) : OutboundRequest :=
  { url := targetUrl, method := req.method,
    headers := passthroughHeaders req.headers,
    body := if req.method != "GET" && req.method != "HEAD"
            then OutBody.stream req.rawBody else OutBody.noBody }

/-- Relay of a generic passthrough upstream response: clone upstream
headers, overlay CORS (no forced `Content-Type`), stream the body. -/
def relayGenericResponse (u : UpstreamResponse) : Response :=
  { status := u.status, statusText := u.statusText,
    headers := addCorsHeaders u.headers,
    body := u.body }

/-- The body of `handleRequest`'s `try` block (xAI variant): 404 outside
`/v1/`, image transformer on `POST /v1/images/generations`, generic
passthrough otherwise.  The passthrough `fetch` has no local `catch`, so
its failure propagates as an `Except.error`. -/
def handleRequestCore (fetch : Fetch) (req : Request) : Except String Response :=
  if strStartsWith req.path "/v1/" then
    let targetUrl := buildTargetUrl XAI_API_HOST req.path req.query
    if req.path == IMAGE_GENERATION_PATH && req.method == "POST" then
      handleImageGenerationRequest fetch req targetUrl
    else
      match fetch (passthroughRequest targetUrl req) with
      | .ok u => .ok (relayGenericResponse u)
      | .err m => .error m
  else .ok notFoundResponse

/-- `handleRequest` (xAI variant): OPTIONS preflight, then the `try` block
with the outer `catch` mapping any uncaught exception to 500. -/
def handleRequest (fetch : Fetch) (req : Request) : Response :=
  if req.method == "OPTIONS" then handleCorsPreflight
  else
    match handleRequestCore fetch req with
    | .ok r => r
    | .error e => serverErrorResponse e

end XAI

/-! ## Basic lemmas about the embedded collections -/

theorem headerNameMatches_eq_decide (a b : String) :
    headerNameMatches a b = decide (lowerName a = lowerName b) := by
  by_cases h : lowerName a = lowerName b <;> simp [headerNameMatches, h]

theorem Headers.get_delete (h : Headers) (name k : String) :
    (h.delete name).get k =
      if lowerName name = lowerName k then none else h.get k := by
  induction h with
  | nil =>
    simp only [Headers.delete, Headers.get]
    split <;> rfl
  | cons p rest ih =>
    obtain ⟨a, v⟩ := p
    simp only [Headers.delete, Headers.get, headerNameMatches_eq_decide]
    by_cases h1 : lowerName a = lowerName name <;>
      by_cases h2 : lowerName a = lowerName k <;>
      by_cases h3 : lowerName name = lowerName k <;>
      simp_all [Headers.get, headerNameMatches_eq_decide]

theorem Headers.get_append (h1 h2 : Headers) (k : String) :
    (h1 ++ h2).get k =
      match h1.get k with
      | some v => some v
      | none => h2.get k := by
  induction h1 with
  | nil => simp [Headers.get]
  | cons p rest ih =>
    obtain ⟨a, v⟩ := p
    simp only [List.cons_append, Headers.get]
    split <;> simp [ih]

theorem headers_get_set (h : Headers) (name value k : String) :
    (h.set name value).get k =
      if lowerName name = lowerName k then some value else h.get k := by
  simp only [Headers.set, Headers.get_append, Headers.get_delete]
  by_cases h3 : lowerName name = lowerName k <;>
    cases hg : Headers.get h k <;>
      simp [h3, hg, Headers.get, headerNameMatches_eq_decide]

theorem recObj_get_set (o : RecObj) (key : String) (v : JValue) (k : String) :
    (o.set key v).get k = if key = k then some v else o.get k := by
  induction o with
  | nil =>
    simp only [RecObj.set, RecObj.get]
    by_cases h : key = k <;> simp [h]
  | cons p rest ih =>
    obtain ⟨a, w⟩ := p
    simp only [RecObj.set, RecObj.get]
    by_cases h1 : a = key <;> by_cases h2 : key = k <;>
      simp_all [RecObj.get]

theorem list_foldl_append_singleton {α : Type} (q : List α) (acc : List α) :
    q.foldl (fun l x => l ++ [x]) acc = acc ++ q := by
  induction q generalizing acc with
  | nil => simp
  | cons x xs ih => simp [List.foldl, ih]

theorem buildTargetUrl_spec (host path : String) (q : List (String × String)) :
    buildTargetUrl host path q =
      { scheme := "https", host := host, path := path, query := q } := by
  have aux : ∀ (q : List (String × String)) (u : TargetUrl),
      q.foldl (fun u kv => { u with query := u.query ++ [kv] }) u =
        { u with query := u.query ++ q } := by
    intro q
    induction q with
    | nil => intro u; simp
    | cons kv kvs ih => intro u; simp [List.foldl, ih]
  simpa [buildTargetUrl] using aux q _

theorem filterParamsAux_obj (fields : RecObj) (ps : List String) (acc : RecObj) :
    filterParamsAux (JValue.obj fields) ps acc =
      .ok (ps.foldl
        (fun acc p =>
          match RecObj.get fields p with
          | some v => RecObj.set acc p v
          | none => acc)
        acc) := by
  induction ps generalizing acc with
  | nil => rfl
  | cons p rest ih =>
    simp only [filterParamsAux, JValue.getProp, List.foldl]
    cases RecObj.get fields p <;> simp [ih]

theorem filterParams_obj (params : List String) (fields : RecObj) :
    filterParams params (JValue.obj fields) = .ok (filterObj params fields) :=
  filterParamsAux_obj fields params []

theorem filterParamsAux_prim (b : JValue) (hb : ∀ p, b.getProp p = .ok none)
    (ps : List String) (acc : RecObj) :
    filterParamsAux b ps acc = .ok acc := by
  induction ps with
  | nil => rfl
  | cons p rest ih => simp [filterParamsAux, hb p, ih]

theorem filterParams_prim (params : List String) (b : JValue)
    (hb : ∀ p, b.getProp p = .ok none) :
    filterParams params b = .ok [] :=
  filterParamsAux_prim b hb params []

theorem filterObjAux_get (fields : RecObj) (ps : List String) (acc : RecObj) (k : String) :
    RecObj.get
      (ps.foldl
        (fun acc p =>
          match RecObj.get fields p with
          | some v => RecObj.set acc p v
          | none => acc)
        acc) k
    = if k ∈ ps ∧ (RecObj.get fields k).isSome then RecObj.get fields k
      else RecObj.get acc k := by
  induction ps generalizing acc with
  | nil => simp
  | cons p rest ih =>
    simp only [List.foldl, ih]
    by_cases hk : k = p
    · subst hk
      cases hf : RecObj.get fields k with
      | none => simp [hf]
      | some v => simp [hf, recObj_get_set]
    · cases hf : RecObj.get fields p with
      | none => simp [hf, List.mem_cons, hk]
      | some v => simp [hf, recObj_get_set, hk, List.mem_cons, Ne.symm hk]

theorem filterObj_get (params : List String) (fields : RecObj) (k : String) :
    RecObj.get (filterObj params fields) k =
      if k ∈ params ∧ (RecObj.get fields k).isSome then RecObj.get fields k
      else none := by
  simpa [filterObj] using filterObjAux_get fields params [] k

/-! ## The defaulting step (jimeng variant) -/

theorem addDefaults_get_model (fb : RecObj) :
    RecObj.get (Jimeng.addDefaults fb) "model" =
      if truthyOpt (RecObj.get fb "model") then RecObj.get fb "model"
      else some (JValue.str "jimeng-3.0") := by
  have h2 : ¬ ("negativePrompt" : String) = "model" := by decide
  have h3 : ¬ ("width" : String) = "model" := by decide
  have h4 : ¬ ("height" : String) = "model" := by decide
  have h5 : ¬ ("sample_strength" : String) = "model" := by decide
  simp only [Jimeng.addDefaults]
  by_cases h1 : truthyOpt (RecObj.get fb "model") <;>
    simp [h1, apply_ite (fun o => RecObj.get o "model"), recObj_get_set,
      h2, h3, h4, h5]

theorem addDefaults_get_negativePrompt (fb : RecObj) :
    RecObj.get (Jimeng.addDefaults fb) "negativePrompt" =
      if truthyOpt (RecObj.get fb "negativePrompt") then
        RecObj.get fb "negativePrompt"
      else some (JValue.str "") := by
  have h1 : ¬ ("model" : String) = "negativePrompt" := by decide
  have h3 : ¬ ("width" : String) = "negativePrompt" := by decide
  have h4 : ¬ ("height" : String) = "negativePrompt" := by decide
  have h5 : ¬ ("sample_strength" : String) = "negativePrompt" := by decide
  simp only [Jimeng.addDefaults]
  by_cases h2 : truthyOpt (RecObj.get fb "negativePrompt") <;>
    simp [h2, apply_ite (fun o => RecObj.get o "negativePrompt"), recObj_get_set,
      h1, h3, h4, h5, apply_ite truthyOpt]

theorem addDefaults_get_width (fb : RecObj) :
    RecObj.get (Jimeng.addDefaults fb) "width" =
      if truthyOpt (RecObj.get fb "width") then RecObj.get fb "width"
      else some (JValue.num 1024) := by
  have h1 : ¬ ("model" : String) = "width" := by decide
  have h2 : ¬ ("negativePrompt" : String) = "width" := by decide
  have h4 : ¬ ("height" : String) = "width" := by decide
  have h5 : ¬ ("sample_strength" : String) = "width" := by decide
  simp only [Jimeng.addDefaults]
  by_cases h3 : truthyOpt (RecObj.get fb "width") <;>
    simp [h3, apply_ite (fun o => RecObj.get o "width"), recObj_get_set,
      h1, h2, h4, h5, apply_ite truthyOpt]

theorem addDefaults_get_height (fb : RecObj) :
    RecObj.get (Jimeng.addDefaults fb) "height" =
      if truthyOpt (RecObj.get fb "height") then RecObj.get fb "height"
      else some (JValue.num 1024) := by
  have h1 : ¬ ("model" : String) = "height" := by decide
  have h2 : ¬ ("negativePrompt" : String) = "height" := by decide
  have h3 : ¬ ("width" : String) = "height" := by decide
  have h5 : ¬ ("sample_strength" : String) = "height" := by decide
  simp only [Jimeng.addDefaults]
  by_cases h4 : truthyOpt (RecObj.get fb "height") <;>
    simp [h4, apply_ite (fun o => RecObj.get o "height"), recObj_get_set,
      h1, h2, h3, h5, apply_ite truthyOpt]

theorem addDefaults_get_sample_strength (fb : RecObj) :
    RecObj.get (Jimeng.addDefaults fb) "sample_strength" =
      if (RecObj.get fb "sample_strength").isNone then some (JValue.num (1/2))
      else RecObj.get fb "sample_strength" := by
  have h1 : ¬ ("model" : String) = "sample_strength" := by decide
  have h2 : ¬ ("negativePrompt" : String) = "sample_strength" := by decide
  have h3 : ¬ ("width" : String) = "sample_strength" := by decide
  have h4 : ¬ ("height" : String) = "sample_strength" := by decide
  simp only [Jimeng.addDefaults]
  by_cases h5 : (RecObj.get fb "sample_strength").isNone <;>
    simp [h5, apply_ite (fun o => RecObj.get o "sample_strength"), recObj_get_set,
      h1, h2, h3, h4, apply_ite truthyOpt, apply_ite Option.isNone]

theorem addDefaults_get_other (fb : RecObj) (k : String)
    (h1 : ¬ ("model" : String) = k) (h2 : ¬ ("negativePrompt" : String) = k)
    (h3 : ¬ ("width" : String) = k) (h4 : ¬ ("height" : String) = k)
    (h5 : ¬ ("sample_strength" : String) = k) :
    RecObj.get (Jimeng.addDefaults fb) k = RecObj.get fb k := by
  simp only [Jimeng.addDefaults]
  simp [apply_ite (fun o => RecObj.get o k), recObj_get_set,
    h1, h2, h3, h4, h5, apply_ite truthyOpt, apply_ite Option.isNone]

/-! ## CORS header facts -/

theorem addCors_get_acao (h : Headers) :
    (addCorsHeaders h).get "Access-Control-Allow-Origin" = some "*" := by
  simp [addCorsHeaders, SUCCESS_CORS_HEADERS, headers_get_set]

theorem set_ct_get_acao (h : Headers) :
    (h.set "Content-Type" "application/json").get "Access-Control-Allow-Origin" =
      h.get "Access-Control-Allow-Origin" := by
  rw [headers_get_set, if_neg (by decide)]

theorem jsonErrorResponse_acao (status : Nat) (msg : String) :
    (jsonErrorResponse status msg).headers.get "Access-Control-Allow-Origin" =
      some "*" :=
  addCors_get_acao _

theorem notFoundResponse_acao :
    notFoundResponse.headers.get "Access-Control-Allow-Origin" = some "*" :=
  addCors_get_acao _

theorem relayImageResponse_acao (u : UpstreamResponse) :
    (relayImageResponse u).headers.get "Access-Control-Allow-Origin" = some "*" := by
  simp [relayImageResponse, set_ct_get_acao, addCors_get_acao]

theorem preflight_acao :
    handleCorsPreflight.headers.get "Access-Control-Allow-Origin" = some "*" := by
  rfl

theorem jimeng_image_acao (f : Fetch) (req : Request) (tgt : TargetUrl) (r : Response)
    (h : Jimeng.handleImageGenerationRequest f req tgt = .ok r) :
    r.headers.get "Access-Control-Allow-Origin" = some "*" := by
  simp only [Jimeng.handleImageGenerationRequest] at h
  by_cases hct : strIncludes ((req.headers.get "Content-Type").getD "")
      "application/json" = true
  case pos =>
    rw [if_pos hct] at h
    repeat' split at h
    all_goals simp only [Except.ok.injEq, reduceCtorEq] at h
    all_goals first
      | exact h.elim
      | (subst h; first
          | exact jsonErrorResponse_acao _ _
          | (unfold Jimeng.forwardImage
             split
             all_goals first
               | exact relayImageResponse_acao _
               | exact jsonErrorResponse_acao _ _))
  case neg =>
    rw [if_neg hct] at h
    simp only [Except.ok.injEq] at h
    subst h
    exact jsonErrorResponse_acao _ _

theorem xai_image_acao (f : Fetch) (req : Request) (tgt : TargetUrl) (r : Response)
    (h : XAI.handleImageGenerationRequest f req tgt = .ok r) :
    r.headers.get "Access-Control-Allow-Origin" = some "*" := by
  simp only [XAI.handleImageGenerationRequest] at h
  by_cases hct : strIncludes ((req.headers.get "Content-Type").getD "")
      "application/json" = true
  case pos =>
    rw [if_pos hct] at h
    repeat' split at h
    all_goals simp only [Except.ok.injEq, reduceCtorEq] at h
    all_goals first
      | exact h.elim
      | (subst h; first
          | exact jsonErrorResponse_acao _ _
          | (unfold XAI.forwardImage
             split
             all_goals first
               | exact relayImageResponse_acao _
               | exact jsonErrorResponse_acao _ _))
  case neg =>
    rw [if_neg hct] at h
    simp only [Except.ok.injEq] at h
    subst h
    exact jsonErrorResponse_acao _ _

theorem jimeng_core_acao (f : Fetch) (req : Request) (r : Response)
    (h : Jimeng.handleRequestCore f req = .ok r) :
    r.headers.get "Access-Control-Allow-Origin" = some "*" := by
  unfold Jimeng.handleRequestCore at h
  split at h
  · exact jimeng_image_acao _ _ _ _ h
  · simp only [Except.ok.injEq] at h
    subst h
    exact notFoundResponse_acao

theorem xai_core_acao (f : Fetch) (req : Request) (r : Response)
    (h : XAI.handleRequestCore f req = .ok r) :
    r.headers.get "Access-Control-Allow-Origin" = some "*" := by
  simp only [XAI.handleRequestCore] at h
  by_cases hp : strStartsWith req.path "/v1/" = true
  case pos =>
    rw [if_pos hp] at h
    by_cases hi : (req.path == XAI.IMAGE_GENERATION_PATH &&
        req.method == "POST") = true
    case pos =>
      rw [if_pos hi] at h
      exact xai_image_acao _ _ _ _ h
    case neg =>
      rw [if_neg hi] at h
      cases hf : f (XAI.passthroughRequest
          (buildTargetUrl XAI.XAI_API_HOST req.path req.query) req) with
      | ok u =>
        rw [hf] at h
        simp only [Except.ok.injEq] at h
        subst h
        exact addCors_get_acao _
      | err m =>
        rw [hf] at h
        exact absurd h (by simp)
  case neg =>
    rw [if_neg hp] at h
    simp only [Except.ok.injEq] at h
    subst h
    exact notFoundResponse_acao

theorem c1_cors_header_on_every_response_path :
    (∀ (f : Fetch) (req : Request),
      (Jimeng.handleRequest f req).headers.get "Access-Control-Allow-Origin" =
        some "*") ∧
    (∀ (f : Fetch) (req : Request),
      (XAI.handleRequest f req).headers.get "Access-Control-Allow-Origin" =
        some "*") := by
  constructor
  · intro f req
    unfold Jimeng.handleRequest
    split
    · exact preflight_acao
    · split
      · next r hr => exact jimeng_core_acao f req r hr
      · exact jsonErrorResponse_acao _ _
  · intro f req
    unfold XAI.handleRequest
    split
    · exact preflight_acao
    · split
      · next r hr => exact xai_core_acao f req r hr
      · exact jsonErrorResponse_acao _ _

/-! ## C8: OPTIONS preflight -/

/-- C8: in both variants, every inbound OPTIONS request — regardless of
path — gets status 204, an empty body, and exactly the fixed preflight
header set (allow-origin `*`, the five allowed methods, the three allowed
headers, max-age 86400). -/
theorem c8_options_preflight (f : Fetch) (req : Request)
    (h : req.method = "OPTIONS") :
    Jimeng.handleRequest f req =
      { status := 204, statusText := "",
        headers :=
          [("Access-Control-Allow-Origin", "*"),
           ("Access-Control-Allow-Methods", "GET, POST, PUT, DELETE, OPTIONS"),
           ("Access-Control-Allow-Headers",
             "Content-Type, Authorization, X-Requested-With"),
           ("Access-Control-Max-Age", "86400")],
        body := none } ∧
    XAI.handleRequest f req =
      { status := 204, statusText := "",
        headers :=
          [("Access-Control-Allow-Origin", "*"),
           ("Access-Control-Allow-Methods", "GET, POST, PUT, DELETE, OPTIONS"),
           ("Access-Control-Allow-Headers",
             "Content-Type, Authorization, X-Requested-With"),
           ("Access-Control-Max-Age", "86400")],
        body := none } := by
  constructor <;>
    simp [Jimeng.handleRequest, XAI.handleRequest, h, handleCorsPreflight,
      PREFLIGHT_CORS_HEADERS]

/-- A fetch oracle whose every call fails (a fully unreachable network). -/
def errFetch : Fetch := fun _ => FetchResult.err "connection reset"

/-- An OPTIONS request on an arbitrary non-API path. -/
def optionsReq : Request :=
  { method := "OPTIONS", path := "/anything", query := [("a", "1")],
    headers := [("Origin", "https://client.example")],
    rawBody := none, jsonResult := .error "no body" }

theorem c8_options_preflight_witness :
    Jimeng.handleRequest errFetch optionsReq =
      { status := 204, statusText := "",
        headers :=
          [("Access-Control-Allow-Origin", "*"),
           ("Access-Control-Allow-Methods", "GET, POST, PUT, DELETE, OPTIONS"),
           ("Access-Control-Allow-Headers",
             "Content-Type, Authorization, X-Requested-With"),
           ("Access-Control-Max-Age", "86400")],
        body := none } ∧
    XAI.handleRequest errFetch optionsReq =
      { status := 204, statusText := "",
        headers :=
          [("Access-Control-Allow-Origin", "*"),
           ("Access-Control-Allow-Methods", "GET, POST, PUT, DELETE, OPTIONS"),
           ("Access-Control-Allow-Headers",
             "Content-Type, Authorization, X-Requested-With"),
           ("Access-Control-Max-Age", "86400")],
        body := none } :=
  c8_options_preflight errFetch optionsReq rfl

/-! ## C6: the outbound target URL -/

/-- C6: on every forwarded path (the image path in the jimeng variant, any
`/v1/` path in the xAI variant) the outbound target URL is built from the
scheme `https`, the fixed upstream host, the original inbound path, and
every inbound query parameter re-appended in original order with duplicate
keys preserved; both route dispatchers hand exactly that URL to the
outbound-request construction. -/
theorem c6_forwarded_url :
    (∀ (host path : String) (q : List (String × String)),
      buildTargetUrl host path q =
        { scheme := "https", host := host, path := path, query := q }) ∧
    (∀ (tgt : TargetUrl) (auth : String) (fb : RecObj),
      (mkApiRequest tgt auth fb).url = tgt) ∧
    (∀ (tgt : TargetUrl) (req : Request),
      (XAI.passthroughRequest tgt req).url = tgt) ∧
    (∀ (f : Fetch) (req : Request),
      (req.path == Jimeng.IMAGE_GENERATION_PATH && req.method == "POST") = true →
      Jimeng.handleRequestCore f req =
        Jimeng.handleImageGenerationRequest f req
          (buildTargetUrl Jimeng.TARGET_API_HOST req.path req.query)) ∧
    (∀ (f : Fetch) (req : Request),
      strStartsWith req.path "/v1/" = true →
      XAI.handleRequestCore f req =
        if (req.path == XAI.IMAGE_GENERATION_PATH && req.method == "POST") = true
        then XAI.handleImageGenerationRequest f req
          (buildTargetUrl XAI.XAI_API_HOST req.path req.query)
        else
          match f (XAI.passthroughRequest
              (buildTargetUrl XAI.XAI_API_HOST req.path req.query) req) with
          | .ok u => .ok (XAI.relayGenericResponse u)
          | .err m => .error m) := by
  refine ⟨buildTargetUrl_spec, fun _ _ _ => rfl, fun _ _ => rfl, ?_, ?_⟩
  · intro f req h
    simp [Jimeng.handleRequestCore, h]
  · intro f req h
    simp only [XAI.handleRequestCore, if_pos h]

/-- A POST image-generation request (jimeng route) with a duplicate query
key, a JSON content type and body `{"prompt": "cat"}`. -/
def imgReq : Request :=
  { method := "POST", path := "/v1/images/generations",
    query := [("a", "1"), ("a", "2")],
    headers := [("Content-Type", "application/json")],
    rawBody := some "\x7b\"prompt\": \"cat\"\x7d",
    jsonResult := .ok (JValue.obj [("prompt", JValue.str "cat")]) }

/-- A generic GET request on another `/v1/` path (xAI passthrough route). -/
def modelsReq : Request :=
  { method := "GET", path := "/v1/models", query := [("a", "1"), ("a", "2")],
    headers := [("Authorization", "Bearer k")],
    rawBody := none, jsonResult := .error "no body" }

theorem c6_forwarded_url_witness :
    buildTargetUrl "api.x.ai" "/v1/models" [("a", "1"), ("a", "2")] =
      { scheme := "https", host := "api.x.ai", path := "/v1/models",
        query := [("a", "1"), ("a", "2")] } ∧
    Jimeng.handleRequestCore errFetch imgReq =
      Jimeng.handleImageGenerationRequest errFetch imgReq
        (buildTargetUrl Jimeng.TARGET_API_HOST imgReq.path imgReq.query) ∧
    XAI.handleRequestCore errFetch modelsReq =
      (match errFetch (XAI.passthroughRequest
          (buildTargetUrl XAI.XAI_API_HOST modelsReq.path modelsReq.query)
          modelsReq) with
        | .ok u => .ok (XAI.relayGenericResponse u)
        | .err m => .error m) :=
  ⟨c6_forwarded_url.1 "api.x.ai" "/v1/models" [("a", "1"), ("a", "2")],
   c6_forwarded_url.2.2.2.1 errFetch imgReq (by decide),
   c6_forwarded_url.2.2.2.2 errFetch modelsReq (by decide)⟩

/-! ## C7: the generic passthrough request (xAI variant) -/

/-- C7: in the xAI variant, the generic passthrough request preserves the
method, overwrites `Host` to the upstream host, removes exactly the four
Cloudflare hop headers while leaving every other inbound header unchanged,
and forwards the inbound body exactly when the method is neither GET nor
HEAD; the dispatcher uses it for every `/v1/` route other than the POST
image route. -/
theorem c7_passthrough_request (req : Request) (tgt : TargetUrl) :
    (XAI.passthroughRequest tgt req).method = req.method ∧
    (XAI.passthroughRequest tgt req).headers.get "Host" =
      some XAI.XAI_API_HOST ∧
    (∀ k, k ∈ ["cf-connecting-ip", "cf-ipcountry", "cf-ray", "cf-visitor"] →
      (XAI.passthroughRequest tgt req).headers.get k = none) ∧
    (∀ k, lowerName "Host" ≠ lowerName k →
      (∀ c ∈ (["cf-connecting-ip", "cf-ipcountry", "cf-ray", "cf-visitor"] :
          List String), lowerName c ≠ lowerName k) →
      (XAI.passthroughRequest tgt req).headers.get k = req.headers.get k) ∧
    (req.method ≠ "GET" → req.method ≠ "HEAD" →
      (XAI.passthroughRequest tgt req).body = OutBody.stream req.rawBody) ∧
    (req.method = "GET" ∨ req.method = "HEAD" →
      (XAI.passthroughRequest tgt req).body = OutBody.noBody) ∧
    (∀ (f : Fetch),
      strStartsWith req.path "/v1/" = true →
      (req.path == XAI.IMAGE_GENERATION_PATH && req.method == "POST") = false →
      XAI.handleRequestCore f req =
        match f (XAI.passthroughRequest
            (buildTargetUrl XAI.XAI_API_HOST req.path req.query) req) with
        | .ok u => .ok (XAI.relayGenericResponse u)
        | .err m => .error m) := by
  refine ⟨rfl, ?_, ?_, ?_, ?_, ?_, ?_⟩
  · simp +decide [XAI.passthroughRequest, XAI.passthroughHeaders,
      Headers.get_delete, headers_get_set]
  · intro k hk
    fin_cases hk <;>
      simp +decide [XAI.passthroughRequest, XAI.passthroughHeaders,
        Headers.get_delete, headers_get_set]
  · intro k hHost hcf
    have h1 := hcf "cf-connecting-ip" (by simp)
    have h2 := hcf "cf-ipcountry" (by simp)
    have h3 := hcf "cf-ray" (by simp)
    have h4 := hcf "cf-visitor" (by simp)
    simp [XAI.passthroughRequest, XAI.passthroughHeaders,
      Headers.get_delete, headers_get_set, h1, h2, h3, h4, hHost]
  · intro h1 h2
    simp [XAI.passthroughRequest, h1, h2]
  · intro h
    cases h with
    | inl h => simp [XAI.passthroughRequest, h]
    | inr h => simp [XAI.passthroughRequest, h]
  · intro f hp hi
    simp only [XAI.handleRequestCore, if_pos hp, hi, Bool.false_eq_true,
      if_false]

/-- A DELETE request on a generic `/v1/` path carrying a Cloudflare hop
header, a custom header and a body. -/
def delReq : Request :=
  { method := "DELETE", path := "/v1/files/f1", query := [],
    headers := [("Host", "proxy.example"), ("cf-ray", "8a1b-SJC"),
                ("X-Custom", "7")],
    rawBody := some "payload", jsonResult := .error "not json" }

/-- The target URL used by the passthrough witness. -/
def delTgt : TargetUrl :=
  buildTargetUrl XAI.XAI_API_HOST delReq.path delReq.query

theorem c7_passthrough_request_witness :
    (XAI.passthroughRequest delTgt delReq).method = "DELETE" ∧
    (XAI.passthroughRequest delTgt delReq).headers.get "Host" =
      some "api.x.ai" ∧
    (XAI.passthroughRequest delTgt delReq).headers.get "cf-ray" = none ∧
    (XAI.passthroughRequest delTgt delReq).headers.get "X-Custom" =
      delReq.headers.get "X-Custom" ∧
    (XAI.passthroughRequest delTgt delReq).body =
      OutBody.stream (some "payload") ∧
    XAI.handleRequestCore errFetch delReq =
      (match errFetch (XAI.passthroughRequest
          (buildTargetUrl XAI.XAI_API_HOST delReq.path delReq.query) delReq) with
        | .ok u => .ok (XAI.relayGenericResponse u)
        | .err m => .error m) :=
  ⟨(c7_passthrough_request delReq delTgt).1,
   (c7_passthrough_request delReq delTgt).2.1,
   (c7_passthrough_request delReq delTgt).2.2.1 "cf-ray" (by simp),
   (c7_passthrough_request delReq delTgt).2.2.2.1 "X-Custom" (by decide)
     (by intro c hc; fin_cases hc <;> decide),
   (c7_passthrough_request delReq delTgt).2.2.2.2.1 (by decide) (by decide),
   (c7_passthrough_request delReq delTgt).2.2.2.2.2.2 errFetch (by decide)
     (by decide)⟩

/-! ## Handler factorizations on requests that pass all checks -/

theorem jimeng_handler_forward (f : Fetch) (req : Request) (tgt : TargetUrl)
    (fields : RecObj)
    (hct : strIncludes ((req.headers.get "Content-Type").getD "")
      "application/json" = true)
    (hjson : req.jsonResult = .ok (JValue.obj fields))
    (hprompt : truthyOpt (RecObj.get fields "prompt") = true) :
    Jimeng.handleImageGenerationRequest f req tgt =
      .ok (Jimeng.forwardImage f
        (mkApiRequest tgt ((req.headers.get "Authorization").getD "")
          (Jimeng.addDefaults
            (filterObj Jimeng.SUPPORTED_IMAGE_PARAMS fields)))) := by
  simp only [Jimeng.handleImageGenerationRequest, if_pos hct, hjson,
    JValue.getProp, if_pos hprompt, filterParams_obj]

theorem xai_handler_forward (f : Fetch) (req : Request) (tgt : TargetUrl)
    (b : JValue) (fb : RecObj)
    (hct : strIncludes ((req.headers.get "Content-Type").getD "")
      "application/json" = true)
    (hjson : req.jsonResult = .ok b)
    (hfb : filterParams XAI.SUPPORTED_IMAGE_PARAMS b = .ok fb) :
    XAI.handleImageGenerationRequest f req tgt =
      .ok (XAI.forwardImage f
        (mkApiRequest tgt ((req.headers.get "Authorization").getD "") fb)) := by
  simp only [XAI.handleImageGenerationRequest, if_pos hct, hjson, hfb]

theorem filterObj_get_mem (params : List String) (fields : RecObj) (k : String)
    (hk : k ∈ params) :
    RecObj.get (filterObj params fields) k = RecObj.get fields k := by
  rcases hg : RecObj.get fields k with _ | v <;> simp [filterObj_get, hk, hg]

/-! ## C2: allow-list filtering of the forwarded body -/

/-- Body `{"prompt": "cat", "model": ""}` on the jimeng image route. -/
def c2fields : RecObj := [("prompt", JValue.str "cat"), ("model", JValue.str "")]

/-- The jimeng image-route request carrying `c2fields`. -/
def c2req : Request :=
  { method := "POST", path := "/v1/images/generations", query := [],
    headers := [("Content-Type", "application/json")],
    rawBody := some "\x7b\"prompt\": \"cat\", \"model\": \"\"\x7d",
    jsonResult := .ok (JValue.obj c2fields) }

/-- The target URL of the jimeng image route with no query. -/
def c2tgt : TargetUrl :=
  buildTargetUrl Jimeng.TARGET_API_HOST "/v1/images/generations" []

/-- C2 as stated fails on the jimeng variant: `model` is supplied with the
(non-undefined) value `""`, yet the forwarded body carries the default
`"jimeng-3.0"` instead of the supplied value. -/
theorem c2_filtering_counterexample :
    RecObj.get c2fields "model" = some (JValue.str "") ∧
    Jimeng.handleImageGenerationRequest errFetch c2req c2tgt =
      .ok (Jimeng.forwardImage errFetch
        (mkApiRequest c2tgt ""
          (Jimeng.addDefaults
            (filterObj Jimeng.SUPPORTED_IMAGE_PARAMS c2fields)))) ∧
    RecObj.get (Jimeng.addDefaults
        (filterObj Jimeng.SUPPORTED_IMAGE_PARAMS c2fields)) "model" =
      some (JValue.str "jimeng-3.0") :=
  ⟨rfl, jimeng_handler_forward errFetch c2req c2tgt c2fields rfl rfl rfl, rfl⟩

/-- C2 (amended): for every image-generation request whose body parses as a
JSON object, the forwarded upstream body is a new mapping whose keys are a
subset of the fixed allow-list, and every key outside the allow-list (e.g.
`unsupported_field`) is absent, without producing an error; in the xAI
variant every allow-listed key whose value is not undefined is copied with
that value, while in the jimeng variant the copied value may subsequently
be replaced by the hardcoded default when it is falsy. -/
theorem c2_allowlist_filtering :
    (∀ (f : Fetch) (req : Request) (tgt : TargetUrl) (fields : RecObj),
      strIncludes ((req.headers.get "Content-Type").getD "")
        "application/json" = true →
      req.jsonResult = .ok (JValue.obj fields) →
      XAI.handleImageGenerationRequest f req tgt =
        .ok (XAI.forwardImage f
          (mkApiRequest tgt ((req.headers.get "Authorization").getD "")
            (filterObj XAI.SUPPORTED_IMAGE_PARAMS fields)))) ∧
    (∀ (fields : RecObj) (k : String), k ∈ XAI.SUPPORTED_IMAGE_PARAMS →
      RecObj.get (filterObj XAI.SUPPORTED_IMAGE_PARAMS fields) k =
        RecObj.get fields k) ∧
    (∀ (fields : RecObj) (k : String), k ∉ XAI.SUPPORTED_IMAGE_PARAMS →
      RecObj.get (filterObj XAI.SUPPORTED_IMAGE_PARAMS fields) k = none) ∧
    (∀ (fields : RecObj) (k : String), k ∉ Jimeng.SUPPORTED_IMAGE_PARAMS →
      RecObj.get (Jimeng.addDefaults
        (filterObj Jimeng.SUPPORTED_IMAGE_PARAMS fields)) k = none) := by
  refine ⟨?_, ?_, ?_, ?_⟩
  · intro f req tgt fields hct hjson
    exact xai_handler_forward f req tgt _ _ hct hjson (filterParams_obj _ _)
  · intro fields k hk
    exact filterObj_get_mem _ _ _ hk
  · intro fields k hk
    simp [filterObj_get, hk]
  · intro fields k hk
    have h1 : ¬ ("model" : String) = k := by
      rintro rfl; exact hk (by simp [Jimeng.SUPPORTED_IMAGE_PARAMS])
    have h2 : ¬ ("negativePrompt" : String) = k := by
      rintro rfl; exact hk (by simp [Jimeng.SUPPORTED_IMAGE_PARAMS])
    have h3 : ¬ ("width" : String) = k := by
      rintro rfl; exact hk (by simp [Jimeng.SUPPORTED_IMAGE_PARAMS])
    have h4 : ¬ ("height" : String) = k := by
      rintro rfl; exact hk (by simp [Jimeng.SUPPORTED_IMAGE_PARAMS])
    have h5 : ¬ ("sample_strength" : String) = k := by
      rintro rfl; exact hk (by simp [Jimeng.SUPPORTED_IMAGE_PARAMS])
    rw [addDefaults_get_other _ _ h1 h2 h3 h4 h5]
    simp [filterObj_get, hk]

/-- Body `{"prompt": "cat", "unsupported_field": "x"}` (the spec example). -/
def c2xfields : RecObj :=
  [("prompt", JValue.str "cat"), ("unsupported_field", JValue.str "x")]

/-- The xAI image-route request carrying `c2xfields`. -/
def c2xreq : Request :=
  { method := "POST", path := "/v1/images/generations", query := [],
    headers := [("Content-Type", "application/json")],
    rawBody := some "\x7b\"prompt\": \"cat\", \"unsupported_field\": \"x\"\x7d",
    jsonResult := .ok (JValue.obj c2xfields) }

/-- The target URL of the xAI image route with no query. -/
def c2xtgt : TargetUrl :=
  buildTargetUrl XAI.XAI_API_HOST "/v1/images/generations" []

theorem c2_allowlist_filtering_witness :
    XAI.handleImageGenerationRequest errFetch c2xreq c2xtgt =
      .ok (XAI.forwardImage errFetch
        (mkApiRequest c2xtgt ""
          (filterObj XAI.SUPPORTED_IMAGE_PARAMS c2xfields))) ∧
    RecObj.get (filterObj XAI.SUPPORTED_IMAGE_PARAMS c2xfields) "prompt" =
      RecObj.get c2xfields "prompt" ∧
    RecObj.get (filterObj XAI.SUPPORTED_IMAGE_PARAMS c2xfields)
      "unsupported_field" = none ∧
    RecObj.get (Jimeng.addDefaults
        (filterObj Jimeng.SUPPORTED_IMAGE_PARAMS c2xfields))
      "unsupported_field" = none :=
  ⟨c2_allowlist_filtering.1 errFetch c2xreq c2xtgt c2xfields rfl rfl,
   c2_allowlist_filtering.2.1 c2xfields "prompt" (by decide),
   c2_allowlist_filtering.2.2.1 c2xfields "unsupported_field" (by decide),
   c2_allowlist_filtering.2.2.2 c2xfields "unsupported_field" (by decide)⟩

/-! ## C3: defaulting for never-supplied keys (jimeng variant) -/

/-- Body `{"prompt": "cat", "width": 0}` on the jimeng image route. -/
def c3fields : RecObj := [("prompt", JValue.str "cat"), ("width", JValue.num 0)]

/-- The jimeng image-route request carrying `c3fields`. -/
def c3req : Request :=
  { method := "POST", path := "/v1/images/generations", query := [],
    headers := [("Content-Type", "application/json")],
    rawBody := some "\x7b\"prompt\": \"cat\", \"width\": 0\x7d",
    jsonResult := .ok (JValue.obj c3fields) }

/-- C3 as stated fails: `width` is supplied with the falsy value `0`, yet
the forwarded body carries the default `1024` instead of the supplied
value. -/
theorem c3_defaulting_counterexample :
    RecObj.get c3fields "width" = some (JValue.num 0) ∧
    Jimeng.handleImageGenerationRequest errFetch c3req c2tgt =
      .ok (Jimeng.forwardImage errFetch
        (mkApiRequest c2tgt ""
          (Jimeng.addDefaults
            (filterObj Jimeng.SUPPORTED_IMAGE_PARAMS c3fields)))) ∧
    RecObj.get (Jimeng.addDefaults
        (filterObj Jimeng.SUPPORTED_IMAGE_PARAMS c3fields)) "width" =
      some (JValue.num 1024) :=
  ⟨rfl, jimeng_handler_forward errFetch c3req c2tgt c3fields rfl rfl rfl, rfl⟩

/-- C3 (amended): in the defaulting (jimeng) variant, every allow-listed
defaultable key that was never supplied receives its hardcoded default
(body `{"prompt": "cat"}` yields `model="jimeng-3.0"`, `negativePrompt=""`,
`width=1024`, `height=1024`, `sample_strength=0.5`); a supplied truthy
value is always preserved, and a supplied `sample_strength` is preserved
whatever its value; but for `model`, `negativePrompt`, `width` and `height`
a supplied falsy value (such as `0` or `""`) is overwritten by the
default. -/
theorem c3_defaulting_amended :
    Jimeng.addDefaults
        (filterObj Jimeng.SUPPORTED_IMAGE_PARAMS [("prompt", JValue.str "cat")]) =
      [("prompt", JValue.str "cat"), ("model", JValue.str "jimeng-3.0"),
       ("negativePrompt", JValue.str ""), ("width", JValue.num 1024),
       ("height", JValue.num 1024), ("sample_strength", JValue.num (1/2))] ∧
    (∀ fields : RecObj,
      (RecObj.get fields "model" = none →
        RecObj.get (Jimeng.addDefaults
          (filterObj Jimeng.SUPPORTED_IMAGE_PARAMS fields)) "model" =
            some (JValue.str "jimeng-3.0")) ∧
      (RecObj.get fields "negativePrompt" = none →
        RecObj.get (Jimeng.addDefaults
          (filterObj Jimeng.SUPPORTED_IMAGE_PARAMS fields)) "negativePrompt" =
            some (JValue.str "")) ∧
      (RecObj.get fields "width" = none →
        RecObj.get (Jimeng.addDefaults
          (filterObj Jimeng.SUPPORTED_IMAGE_PARAMS fields)) "width" =
            some (JValue.num 1024)) ∧
      (RecObj.get fields "height" = none →
        RecObj.get (Jimeng.addDefaults
          (filterObj Jimeng.SUPPORTED_IMAGE_PARAMS fields)) "height" =
            some (JValue.num 1024)) ∧
      (RecObj.get fields "sample_strength" = none →
        RecObj.get (Jimeng.addDefaults
          (filterObj Jimeng.SUPPORTED_IMAGE_PARAMS fields)) "sample_strength" =
            some (JValue.num (1/2))) ∧
      (truthyOpt (RecObj.get fields "model") = true →
        RecObj.get (Jimeng.addDefaults
          (filterObj Jimeng.SUPPORTED_IMAGE_PARAMS fields)) "model" =
            RecObj.get fields "model") ∧
      (truthyOpt (RecObj.get fields "negativePrompt") = true →
        RecObj.get (Jimeng.addDefaults
          (filterObj Jimeng.SUPPORTED_IMAGE_PARAMS fields)) "negativePrompt" =
            RecObj.get fields "negativePrompt") ∧
      (truthyOpt (RecObj.get fields "width") = true →
        RecObj.get (Jimeng.addDefaults
          (filterObj Jimeng.SUPPORTED_IMAGE_PARAMS fields)) "width" =
            RecObj.get fields "width") ∧
      (truthyOpt (RecObj.get fields "height") = true →
        RecObj.get (Jimeng.addDefaults
          (filterObj Jimeng.SUPPORTED_IMAGE_PARAMS fields)) "height" =
            RecObj.get fields "height") ∧
      (∀ v, RecObj.get fields "sample_strength" = some v →
        RecObj.get (Jimeng.addDefaults
          (filterObj Jimeng.SUPPORTED_IMAGE_PARAMS fields)) "sample_strength" =
            some v)) := by
  refine ⟨by rfl, ?_⟩
  intro fields
  refine ⟨?_, ?_, ?_, ?_, ?_, ?_, ?_, ?_, ?_, ?_⟩
  · intro h
    rw [addDefaults_get_model, filterObj_get_mem _ _ _ (by decide), h]
    simp [truthyOpt]
  · intro h
    rw [addDefaults_get_negativePrompt, filterObj_get_mem _ _ _ (by decide), h]
    simp [truthyOpt]
  · intro h
    rw [addDefaults_get_width, filterObj_get_mem _ _ _ (by decide), h]
    simp [truthyOpt]
  · intro h
    rw [addDefaults_get_height, filterObj_get_mem _ _ _ (by decide), h]
    simp [truthyOpt]
  · intro h
    rw [addDefaults_get_sample_strength, filterObj_get_mem _ _ _ (by decide), h]
    simp
  · intro h
    rw [addDefaults_get_model, filterObj_get_mem _ _ _ (by decide), if_pos h]
  · intro h
    rw [addDefaults_get_negativePrompt, filterObj_get_mem _ _ _ (by decide),
      if_pos h]
  · intro h
    rw [addDefaults_get_width, filterObj_get_mem _ _ _ (by decide), if_pos h]
  · intro h
    rw [addDefaults_get_height, filterObj_get_mem _ _ _ (by decide), if_pos h]
  · intro v hv
    rw [addDefaults_get_sample_strength, filterObj_get_mem _ _ _ (by decide), hv]
    simp

/-- Body `{"prompt": "cat", "sample_strength": 0}`. -/
def c3wfields : RecObj :=
  [("prompt", JValue.str "cat"), ("sample_strength", JValue.num 0)]

theorem c3_defaulting_amended_witness :
    RecObj.get (Jimeng.addDefaults
        (filterObj Jimeng.SUPPORTED_IMAGE_PARAMS c3wfields)) "model" =
      some (JValue.str "jimeng-3.0") ∧
    RecObj.get (Jimeng.addDefaults
        (filterObj Jimeng.SUPPORTED_IMAGE_PARAMS c3wfields)) "sample_strength" =
      some (JValue.num 0) :=
  ⟨(c3_defaulting_amended.2 c3wfields).1 rfl,
   (c3_defaulting_amended.2 c3wfields).2.2.2.2.2.2.2.2.2 (JValue.num 0) rfl⟩

/-! ## C10: falsy vs strictly-undefined defaulting tests -/

/-- Body with every defaultable key supplied falsy:
`{"prompt": "cat", "model": "", "width": 0, "height": 0,
"sample_strength": 0}`. -/
def c10fields : RecObj :=
  [("prompt", JValue.str "cat"), ("model", JValue.str ""),
   ("width", JValue.num 0), ("height", JValue.num 0),
   ("sample_strength", JValue.num 0)]

/-- C10: in the jimeng defaulting step the absent/supplied test differs per
field — `model`, `negativePrompt`, `width` and `height` are replaced by
their defaults whenever the filtered value is falsy (so a supplied `""` or
`0` is silently overwritten), whereas `sample_strength` is defaulted only
when strictly undefined, so a supplied `sample_strength` of `0` survives
into the forwarded body. -/
theorem c10_falsy_vs_undefined_defaulting :
    (∀ fb : RecObj,
      (truthyOpt (RecObj.get fb "model") = false →
        RecObj.get (Jimeng.addDefaults fb) "model" =
          some (JValue.str "jimeng-3.0")) ∧
      (truthyOpt (RecObj.get fb "negativePrompt") = false →
        RecObj.get (Jimeng.addDefaults fb) "negativePrompt" =
          some (JValue.str "")) ∧
      (truthyOpt (RecObj.get fb "width") = false →
        RecObj.get (Jimeng.addDefaults fb) "width" = some (JValue.num 1024)) ∧
      (truthyOpt (RecObj.get fb "height") = false →
        RecObj.get (Jimeng.addDefaults fb) "height" = some (JValue.num 1024)) ∧
      (RecObj.get fb "sample_strength" = none →
        RecObj.get (Jimeng.addDefaults fb) "sample_strength" =
          some (JValue.num (1/2))) ∧
      (∀ v, RecObj.get fb "sample_strength" = some v →
        RecObj.get (Jimeng.addDefaults fb) "sample_strength" = some v)) ∧
    RecObj.get (Jimeng.addDefaults
        (filterObj Jimeng.SUPPORTED_IMAGE_PARAMS c10fields)) "model" =
      some (JValue.str "jimeng-3.0") ∧
    RecObj.get (Jimeng.addDefaults
        (filterObj Jimeng.SUPPORTED_IMAGE_PARAMS c10fields)) "width" =
      some (JValue.num 1024) ∧
    RecObj.get (Jimeng.addDefaults
        (filterObj Jimeng.SUPPORTED_IMAGE_PARAMS c10fields)) "height" =
      some (JValue.num 1024) ∧
    RecObj.get (Jimeng.addDefaults
        (filterObj Jimeng.SUPPORTED_IMAGE_PARAMS c10fields)) "sample_strength" =
      some (JValue.num 0) := by
  refine ⟨?_, rfl, rfl, rfl, rfl⟩
  intro fb
  refine ⟨?_, ?_, ?_, ?_, ?_, ?_⟩
  · intro h; rw [addDefaults_get_model]; simp [h]
  · intro h; rw [addDefaults_get_negativePrompt]; simp [h]
  · intro h; rw [addDefaults_get_width]; simp [h]
  · intro h; rw [addDefaults_get_height]; simp [h]
  · intro h; rw [addDefaults_get_sample_strength, h]; simp
  · intro v hv; rw [addDefaults_get_sample_strength, hv]; simp

theorem c10_falsy_vs_undefined_defaulting_witness :
    RecObj.get (Jimeng.addDefaults [("negativePrompt", JValue.str "")])
      "negativePrompt" = some (JValue.str "") ∧
    RecObj.get (Jimeng.addDefaults [("height", JValue.num 0)]) "height" =
      some (JValue.num 1024) :=
  ⟨(c10_falsy_vs_undefined_defaulting.1
      [("negativePrompt", JValue.str "")]).2.1 rfl,
   (c10_falsy_vs_undefined_defaulting.1
      [("height", JValue.num 0)]).2.2.2.1 rfl⟩

/-! ## C4: the required `prompt` check (jimeng variant) -/

/-- A jimeng image-route request whose body text is `null` (valid JSON). -/
def nullReq : Request :=
  { method := "POST", path := "/v1/images/generations", query := [],
    headers := [("Content-Type", "application/json")],
    rawBody := some "null", jsonResult := .ok JValue.null }

/-- C4 as stated fails on the body `null`: it parses as JSON and has no
`prompt` field, yet reading `originalBody.prompt` throws a `TypeError`, so
the response is the uncaught-exception 500, not the 400 the claim
requires. -/
theorem c4_required_prompt_counterexample :
    nullReq.jsonResult = .ok JValue.null ∧
    Jimeng.handleRequest errFetch nullReq =
      serverErrorResponse "Cannot read properties of null" ∧
    (Jimeng.handleRequest errFetch nullReq).status = 500 :=
  ⟨rfl, rfl, rfl⟩

/-- C4 (amended): for every jimeng image-generation request whose
content type contains `application/json` and whose body parses as JSON to
a non-null value, if the `prompt` field is absent or falsy the response is
400 with a JSON body naming `prompt`, and the fetch oracle is never
consulted (the response is the same for every oracle); in particular the
body `\x7b\x7d` yields that response.  A parsed body of `null` instead
throws on property access and yields 500. -/
theorem c4_required_prompt_amended :
    (∀ (f : Fetch) (req : Request) (b : JValue) (pv : Option JValue),
      req.path = "/v1/images/generations" → req.method = "POST" →
      strIncludes ((req.headers.get "Content-Type").getD "")
        "application/json" = true →
      req.jsonResult = .ok b →
      b.getProp "prompt" = .ok pv →
      truthyOpt pv = false →
      Jimeng.handleRequest f req =
        jsonErrorResponse 400 "Missing required parameter: prompt") ∧
    strIncludes (jsonError "Missing required parameter: prompt") "prompt" =
      true := by
  refine ⟨?_, by decide⟩
  intro f req b pv hpath hmethod hct hjson hpv hfalsy
  simp [Jimeng.handleRequest, Jimeng.handleRequestCore,
    Jimeng.handleImageGenerationRequest, Jimeng.IMAGE_GENERATION_PATH,
    hpath, hmethod, hct, hjson, hpv, hfalsy]

/-- A jimeng image-route request with body `\x7b\x7d`. -/
def emptyObjReq : Request :=
  { method := "POST", path := "/v1/images/generations", query := [],
    headers := [("Content-Type", "application/json")],
    rawBody := some "\x7b\x7d", jsonResult := .ok (JValue.obj []) }

theorem c4_required_prompt_amended_witness :
    Jimeng.handleRequest errFetch emptyObjReq =
      jsonErrorResponse 400 "Missing required parameter: prompt" ∧
    strIncludes (jsonError "Missing required parameter: prompt") "prompt" =
      true :=
  ⟨c4_required_prompt_amended.1 errFetch emptyObjReq (JValue.obj []) none
      rfl rfl rfl rfl rfl rfl,
   c4_required_prompt_amended.2⟩

/-! ## C5: upstream fetch failure yields 502 on the image path -/

theorem filterParams_ok (params : List String) (b : JValue)
    (hb : b ≠ JValue.null) :
    ∃ fb, filterParams params b = .ok fb := by
  cases b with
  | null => exact absurd rfl hb
  | obj fields => exact ⟨_, filterParams_obj params fields⟩
  | bool v => exact ⟨[], filterParams_prim params _ (fun p => rfl)⟩
  | num q => exact ⟨[], filterParams_prim params _ (fun p => rfl)⟩
  | str s => exact ⟨[], filterParams_prim params _ (fun p => rfl)⟩
  | arr xs => exact ⟨[], filterParams_prim params _ (fun p => rfl)⟩

/-- C5: when an image-generation request passes the checks its variant
enforces — content type, JSON parse, and (jimeng only) the required
`prompt` — and the upstream dispatch throws (modelled by a fetch oracle
that fails with message `m` on every call), the response is 502 with a
JSON error body embedding `m`.  The xAI variant enforces no required
field, so its conjunct assumes only the content-type and JSON-parse
checks, plus a parse result other than `null`: on a `null` body the
filtering loop throws before the dispatch step, so no exception of the
dispatch step exists and the claim says nothing there. -/
theorem c5_upstream_failure_502 :
    (∀ (req : Request) (m : String) (b : JValue) (pv : Option JValue),
      req.path = "/v1/images/generations" →
      req.method = "POST" →
      strIncludes ((req.headers.get "Content-Type").getD "")
        "application/json" = true →
      req.jsonResult = .ok b →
      b.getProp "prompt" = .ok pv →
      truthyOpt pv = true →
      Jimeng.handleRequest (fun _ => FetchResult.err m) req =
        jsonErrorResponse 502 ("Error fetching from API: " ++ m)) ∧
    (∀ (req : Request) (m : String) (b : JValue),
      req.path = "/v1/images/generations" →
      req.method = "POST" →
      strIncludes ((req.headers.get "Content-Type").getD "")
        "application/json" = true →
      req.jsonResult = .ok b →
      b ≠ JValue.null →
      XAI.handleRequest (fun _ => FetchResult.err m) req =
        jsonErrorResponse 502 ("Error fetching from xAI API: " ++ m)) := by
  constructor
  · intro req m b pv hpath hmethod hct hjson hpv htruthy
    have hbnull : b ≠ JValue.null := by
      intro e
      rw [e] at hpv
      exact absurd hpv (by simp [JValue.getProp])
    obtain ⟨fb, hfb⟩ := filterParams_ok Jimeng.SUPPORTED_IMAGE_PARAMS b hbnull
    simp [Jimeng.handleRequest, Jimeng.handleRequestCore,
      Jimeng.handleImageGenerationRequest, Jimeng.IMAGE_GENERATION_PATH,
      Jimeng.forwardImage, Jimeng.fetchErrorResponse, hpath, hmethod, hct,
      hjson, hpv, htruthy, hfb]
  · intro req m b hpath hmethod hct hjson hbnull
    obtain ⟨fb2, hfb2⟩ := filterParams_ok XAI.SUPPORTED_IMAGE_PARAMS b hbnull
    simp +decide [XAI.handleRequest, XAI.handleRequestCore,
      XAI.handleImageGenerationRequest, XAI.IMAGE_GENERATION_PATH,
      XAI.forwardImage, XAI.fetchErrorResponse, hpath, hmethod, hct,
      hjson, hfb2]

theorem c5_upstream_failure_502_witness :
    Jimeng.handleRequest (fun _ => FetchResult.err "connection reset") imgReq =
      jsonErrorResponse 502 ("Error fetching from API: " ++ "connection reset") ∧
    XAI.handleRequest (fun _ => FetchResult.err "connection reset")
        emptyObjReq =
      jsonErrorResponse 502
        ("Error fetching from xAI API: " ++ "connection reset") :=
  ⟨c5_upstream_failure_502.1 imgReq "connection reset"
      (JValue.obj [("prompt", JValue.str "cat")]) (some (JValue.str "cat"))
      rfl rfl rfl rfl rfl rfl,
   c5_upstream_failure_502.2 emptyObjReq "connection reset" (JValue.obj [])
      rfl rfl rfl rfl (fun h => JValue.noConfusion h)⟩

/-! ## C9: no unhandled exception reaches the hosting runtime -/

/-- C9: in both variants `handleRequest` is a total function into
`Response` — in the embedding every JS exception is an `Except.error`
threaded through `handleRequestCore`, and the outer `catch` converts any
such escaped error `e` (one not already mapped to 400/404/502 inside the
handlers) into the terminal 500 response whose JSON body embeds `e`, so no
error propagates to the hosting runtime. -/
theorem c9_uncaught_error_to_500 :
    (∀ (f : Fetch) (req : Request) (e : String),
      req.method ≠ "OPTIONS" →
      Jimeng.handleRequestCore f req = .error e →
      Jimeng.handleRequest f req = serverErrorResponse e ∧
      (Jimeng.handleRequest f req).status = 500 ∧
      (Jimeng.handleRequest f req).body =
        some (jsonError ("Internal Server Error: " ++ e))) ∧
    (∀ (f : Fetch) (req : Request) (e : String),
      req.method ≠ "OPTIONS" →
      XAI.handleRequestCore f req = .error e →
      XAI.handleRequest f req = serverErrorResponse e ∧
      (XAI.handleRequest f req).status = 500 ∧
      (XAI.handleRequest f req).body =
        some (jsonError ("Internal Server Error: " ++ e))) := by
  constructor
  · intro f req e hm hcore
    have h : Jimeng.handleRequest f req = serverErrorResponse e := by
      simp [Jimeng.handleRequest, hm, hcore]
    exact ⟨h, by rw [h]; rfl, by rw [h]; rfl⟩
  · intro f req e hm hcore
    have h : XAI.handleRequest f req = serverErrorResponse e := by
      simp [XAI.handleRequest, hm, hcore]
    exact ⟨h, by rw [h]; rfl, by rw [h]; rfl⟩

theorem c9_uncaught_error_to_500_witness :
    Jimeng.handleRequest errFetch nullReq =
      serverErrorResponse "Cannot read properties of null" ∧
    XAI.handleRequest errFetch modelsReq =
      serverErrorResponse "connection reset" :=
  ⟨(c9_uncaught_error_to_500.1 errFetch nullReq
      "Cannot read properties of null" (by decide) rfl).1,
   (c9_uncaught_error_to_500.2 errFetch modelsReq
      "connection reset" (by decide) rfl).1⟩
